import Mathlib

/-!
# ovl-sysmodules: module registry and toggle engine of `source/gui_main.cpp`

A shallow embedding of `GuiMain` (constructor scan, per-module click listener,
`hasFlag`, `isRunning`, `createUI`) together with the properties of the
natural-language specification that can be settled on it.

Conventions.
* `u64` values are `Nat`; theorems that depend on the 64-bit range carry the bound.
* The SD-card filesystem is the pair of path lists `files` / `dirs`; the process
  table is the list of program ids that have a live process.
* Every mutating service call (libnx `fsFs*`, `pmshell*`) may fail.  Whether it
  is allowed to take effect is decided by an `Outcomes` record supplied by the
  environment for one click; the listener never looks at a result code, exactly
  as the source ignores them.
* The file-scope `pathBuffer` is a field of the world state, because the source
  passes it implicitly from `snprintf` to the filesystem calls.
* Directory entry names and the toolbox paths built from them are byte strings
  (`List UInt8`): `%.*s` and `snprintf` cut them at bytes.  The two flag formats
  produce ASCII text and are kept as `String`.
-/

namespace OvlSysmodules

/-! ## Constants -/

/-- Size of a path buffer in libnx (`FS_MAX_PATH`, 0x301). -/
def FS_MAX_PATH : Nat := 0x301

/-- Bit of the A button in a key mask (libnx `HidNpadButton_A`, `BIT(0)`). -/
def HidNpadButton_A : Nat := 1

/-- Bit of the Y button in a key mask (libnx `HidNpadButton_Y`, `BIT(3)`). -/
def HidNpadButton_Y : Nat := 8

/-- The program id of the overlay host, excluded at gui_main.cpp:67. -/
def teslaProgramId : Nat := 0x420000000007E51A

/-- Largest `unsigned long` on the target (64 bit). -/
def ULONG_MAX : Nat := 2 ^ 64 - 1

/-! ## Formatting -/

/-- One upper-case hexadecimal digit, as printed by the `X` conversion. -/
def hexDigitUpper (d : Nat) : Char :=
  if d < 10 then Char.ofNat (48 + d) else Char.ofNat (55 + d)

/-- The `k` low hexadecimal digits of `n`, most significant first, zero padded. -/
def hexUpper : Nat → Nat → List Char
  | 0, _ => []
  | k + 1, n => hexUpper k (n / 16) ++ [hexDigitUpper (n % 16)]

/-- The conversion `%016lX` applied to a `u64`: sixteen upper-case digits. -/
def fmt016lX (v : Nat) : String := String.mk (hexUpper 16 (v % 2 ^ 64))

/-- What `std::snprintf(buf, size, ...)` leaves in `buf` when the formatted text
is the ASCII string `s` (one byte per character, as in the two flag formats):
at most `size - 1` characters. -/
def snprintf (size : Nat) (s : String) : String := String.mk (s.data.take (size - 1))

/-- Text produced by `boot2FlagFormat` (gui_main.cpp:9) for a program id. -/
def boot2FlagFormat (programId : Nat) : String :=
  "/atmosphere/contents/" ++ fmt016lX programId ++ "/flags/boot2.flag"

/-- Text produced by `boot2FlagFolder` (gui_main.cpp:10) for a program id. -/
def boot2FlagFolder (programId : Nat) : String :=
  "/atmosphere/contents/" ++ fmt016lX programId ++ "/flags"

/-! ## Data model -/

/-- The struct `SystemModule`; `name` is the text of its `listItem`. -/
structure SystemModule where
  name : String
  programId : Nat
  needReboot : Bool
  deriving DecidableEq, Repr

/-- A service request issued by the overlay, in the order of the source. -/
inductive Call where
  | createDirectory (path : String)
  | createFile (path : String)
  | deleteFile (path : String)
  | openFile (path : String)
  | terminateProgram (programId : Nat)
  | launchProgram (programId : Nat)
  | getProcessId (programId : Nat)
  deriving DecidableEq, Repr

/-- Whether a request is a process start or stop request. -/
def Call.isProcessRequest : Call → Bool
  | .terminateProgram _ => true
  | .launchProgram _ => true
  | _ => false

/-- Whether a request creates or deletes a regular file. -/
def Call.isFileMutation : Call → Bool
  | .createFile _ => true
  | .deleteFile _ => true
  | _ => false

/-- The state the click listener reads and writes. -/
structure World where
  files : List String
  dirs : List String
  procs : List Nat
  pathBuffer : String
  log : List Call
  deriving DecidableEq, Repr

/-- For one click, which mutating service calls the environment lets succeed. -/
structure Outcomes where
  createDirectoryOk : Bool
  terminateOk : Bool
  launchOk : Bool
  createFileOk : Bool
  deleteFileOk : Bool
  deriving DecidableEq, Repr

/-! ## Service calls -/

/-- The call `fsFsCreateDirectory(&m_fs, path)`: adds the directory when allowed and absent. -/
def fsFsCreateDirectory (ok : Bool) (path : String) (w : World) : Bool × World :=
  let w1 := { w with log := w.log ++ [Call.createDirectory path] }
  if ok && !decide (path ∈ w.dirs) then (true, { w1 with dirs := path :: w.dirs })
  else (false, w1)

/-- The call `fsFsCreateFile(&m_fs, path, 0, 0)`: adds the file when allowed and absent. -/
def fsFsCreateFile (ok : Bool) (path : String) (w : World) : Bool × World :=
  let w1 := { w with log := w.log ++ [Call.createFile path] }
  if ok && !decide (path ∈ w.files) then (true, { w1 with files := path :: w.files })
  else (false, w1)

/-- The call `fsFsDeleteFile(&m_fs, path)`: removes the file when allowed and present. -/
def fsFsDeleteFile (ok : Bool) (path : String) (w : World) : Bool × World :=
  let w1 := { w with log := w.log ++ [Call.deleteFile path] }
  if ok && decide (path ∈ w.files) then
    (true, { w1 with files := w.files.filter (fun p => !decide (p = path)) })
  else (false, w1)

/-- The call `fsFsOpenFile(&m_fs, path, FsOpenMode_Read, &f)`: succeeds iff the file exists. -/
def fsFsOpenFile (path : String) (w : World) : Bool × World :=
  (decide (path ∈ w.files), { w with log := w.log ++ [Call.openFile path] })

/-- The call `pmshellTerminateProgram(id)`: the process is gone when the request succeeds. -/
def pmshellTerminateProgram (ok : Bool) (programId : Nat) (w : World) : Bool × World :=
  let w1 := { w with log := w.log ++ [Call.terminateProgram programId] }
  if ok then (true, { w1 with procs := w.procs.filter (fun p => !decide (p = programId)) })
  else (false, w1)

/-- The call `pmshellLaunchProgram(0, &loc, &pid)`: the process is alive when the request succeeds. -/
def pmshellLaunchProgram (ok : Bool) (programId : Nat) (w : World) : Bool × World :=
  let w1 := { w with log := w.log ++ [Call.launchProgram programId] }
  if ok then (true, { w1 with procs := programId :: w.procs }) else (false, w1)

/-- The call `pmdmntGetProcessId(&pid, id)`: a pid greater than zero iff a process is alive. -/
def pmdmntGetProcessId (programId : Nat) (w : World) : Bool × World :=
  (decide (programId ∈ w.procs), { w with log := w.log ++ [Call.getProcessId programId] })

/-! ## `GuiMain::hasFlag`, `GuiMain::isRunning` and the click listener -/

/-- Embedding of `GuiMain::hasFlag` (gui_main.cpp:229-239). -/
def hasFlag (m : SystemModule) (w : World) : Bool × World :=
  let w1 := { w with pathBuffer := snprintf FS_MAX_PATH (boot2FlagFormat m.programId) }
  fsFsOpenFile w1.pathBuffer w1

/-- Embedding of `GuiMain::isRunning` (gui_main.cpp:241-247). -/
def isRunning (m : SystemModule) (w : World) : Bool × World :=
  pmdmntGetProcessId m.programId w

/-- Embedding of the click listener of a module (gui_main.cpp:76-118). -/
def clickListener (m : SystemModule) (o : Outcomes) (click : Nat) (w : World) : Bool × World :=
  let w := { w with pathBuffer := snprintf FS_MAX_PATH (boot2FlagFolder m.programId) }
  let w := (fsFsCreateDirectory o.createDirectoryOk w.pathBuffer w).2
  let w := { w with pathBuffer := snprintf FS_MAX_PATH (boot2FlagFormat m.programId) }
  if (click &&& HidNpadButton_A != 0) && !m.needReboot then
    let (running, w) := isRunning m w
    if running then
      let w := (pmshellTerminateProgram o.terminateOk m.programId w).2
      let (flag, w) := hasFlag m w
      if flag then (true, (fsFsDeleteFile o.deleteFileOk w.pathBuffer w).2)
      else (true, w)
    else
      let w := (pmshellLaunchProgram o.launchOk m.programId w).2
      let (flag, w) := hasFlag m w
      if !flag then (true, (fsFsCreateFile o.createFileOk w.pathBuffer w).2)
      else (true, w)
  else if click &&& HidNpadButton_Y != 0 then
    let (flag, w) := hasFlag m w
    if flag then (true, (fsFsDeleteFile o.deleteFileOk w.pathBuffer w).2)
    else (true, (fsFsCreateFile o.createFileOk w.pathBuffer w).2)
  else (false, w)

/-- Derived attribute `running` of a module: the answer of `isRunning`. -/
def running (w : World) (m : SystemModule) : Bool := (isRunning m w).1

/-- Derived attribute `autoStart` of a module: the answer of `hasFlag`. -/
def autoStart (w : World) (m : SystemModule) : Bool := (hasFlag m w).1

/-- The requests issued between state `w` and the later state `w2`. -/
def issued (w w2 : World) : List Call := w2.log.drop w.log.length

/-! ## Descriptor documents (`nlohmann::json`) -/

/-- A value of `nlohmann::json`; the payload of a floating-point number is not kept. -/
inductive Json where
  | null
  | boolean (b : Bool)
  | numberInteger (i : Int)
  | numberUnsigned (n : Nat)
  | numberFloat
  | string (s : String)
  | array (items : List Json)
  | object (members : List (String × Json))

/-- The exceptions `nlohmann::json` throws in the constructor: `parse_error` from
`json::parse`, `type_error` 305 from `operator[]` on a value that is neither
null nor an object, `type_error` 302 from a conversion to the wrong type. -/
inductive Exception where
  | parse_error
  | type_error (id : Nat)
  deriving DecidableEq, Repr

/-- The non-const `operator[](key)`: a null value becomes an object, a missing
member is inserted as null; returns the updated document and the member. -/
def Json.index (j : Json) (key : String) : Except Exception (Json × Json) :=
  match j with
  | .null => .ok (.object [(key, .null)], .null)
  | .object members =>
    match members.lookup key with
    | some v => .ok (.object members, v)
    | none => .ok (.object (members ++ [(key, .null)]), .null)
  | _ => .error (.type_error 305)

/-- Conversion of a json value to `std::string`. -/
def Json.getString (j : Json) : Except Exception String :=
  match j with
  | .string s => .ok s
  | _ => .error (.type_error 302)

/-- Conversion of a json value to `bool`. -/
def Json.getBool (j : Json) : Except Exception Bool :=
  match j with
  | .boolean b => .ok b
  | _ => .error (.type_error 302)

/-! ## `std::strtoul(s, nullptr, 16)` -/

/-- The C `isspace` in the "C" locale. -/
def isspace (c : Char) : Bool := c.toNat == 32 || (9 ≤ c.toNat && c.toNat ≤ 13)

/-- Value of a hexadecimal digit of either case. -/
def hexValue (c : Char) : Option Nat :=
  let n := c.toNat
  if 48 ≤ n ∧ n ≤ 57 then some (n - 48)
  else if 97 ≤ n ∧ n ≤ 102 then some (n - 87)
  else if 65 ≤ n ∧ n ≤ 70 then some (n - 55)
  else none

/-- Accumulates the longest prefix of hexadecimal digits. -/
def hexPrefixValue : List Char → Nat → Nat
  | [], acc => acc
  | c :: cs, acc =>
    match hexValue c with
    | some d => hexPrefixValue cs (acc * 16 + d)
    | none => acc

/-- The call `std::strtoul(s.c_str(), nullptr, 16)` on a 64-bit `unsigned long`:
leading white space, an optional sign, an optional `0x`, then digits; the
result saturates at `ULONG_MAX` and a minus sign negates modulo `2 ^ 64`. -/
def strtoul16 (s : String) : Nat :=
  let cs := s.data.takeWhile (fun c => c.toNat != 0)
  let cs := cs.dropWhile isspace
  let signed : Bool × List Char :=
    match cs with
    | '-' :: r => (true, r)
    | '+' :: r => (false, r)
    | _ => (false, cs)
  let digits : List Char :=
    match signed.2 with
    | '0' :: 'x' :: r => r
    | '0' :: 'X' :: r => r
    | r => r
  let acc := hexPrefixValue digits 0
  if acc > ULONG_MAX then ULONG_MAX
  else if signed.1 then (2 ^ 64 - acc) % 2 ^ 64
  else acc

/-! ## The constructor scan -/

/-- What the loop body obtains for one `toolbox.json`: a failed `fsFsOpenFile`,
`fsFileGetSize` or `fsFileRead`, or the bytes read, given by what `json::parse`
makes of them (`none` when it throws `parse_error`). -/
inductive ToolboxFile where
  | openFailed
  | getSizeFailed
  | readFailed
  | read (parsed : Option Json)

/-- The environment of the constructor: the results of `fsOpenSdCardFileSystem`
and `smInitialize`, the directory names that `FsDirIterator` yields for
`amsContentsPath` in iteration order (`none` when `fsFsOpenDirectory` fails),
and the toolbox file found at each path. Entry names and paths are byte
strings, as `entry.name` and `pathBuffer` are `char` arrays. -/
structure ScanEnv where
  sdCardOk : Bool
  smOk : Bool
  contentDir : Option (List (List UInt8))
  toolbox : List UInt8 → ToolboxFile

/-- The members of `GuiMain` the claims are about. -/
structure GuiMain where
  m_sysmoduleListItems : List SystemModule
  m_scanned : Bool
  deriving DecidableEq, Repr

/-- Modelled from the spec: the member declarations of `gui_main.hpp`, which is
not among the sources. The list starts empty and, since a failed scan is
reported as "Scan failed!", `m_scanned` starts `false`. -/
def GuiMain.init : GuiMain := { m_sysmoduleListItems := [], m_scanned := false }

/-- The bytes (UTF-8) of a string, the form in which text sits in a `char` array. -/
def utf8 (s : String) : List UInt8 := s.data.flatMap String.utf8EncodeChar

/-- The conversion `%.*s` with precision `n` on a C string: the bytes before the
first NUL, at most `n` of them. -/
def precision (n : Nat) (s : List UInt8) : List UInt8 :=
  (s.takeWhile (fun b => b != 0)).take n

/-- What `std::snprintf(buf, size, ...)` leaves in `buf` when the formatted text
is the byte string `s`: at most `size - 1` bytes. -/
def snprintfBytes (size : Nat) (s : List UInt8) : List UInt8 := s.take (size - 1)

/-- The path left in `pathBuffer` at gui_main.cpp:41 for a directory entry. -/
def toolboxPath (entryName : List UInt8) : List UInt8 :=
  snprintfBytes FS_MAX_PATH
    (utf8 "/atmosphere/contents/" ++ precision (FS_MAX_PATH - 35) entryName
      ++ utf8 "/toolbox.json")

/-- The member `key` of a document converted to `std::string` (gui_main.cpp:63, 71). -/
def Json.stringAt (doc : Json) (key : String) : Except Exception (Json × String) :=
  match doc.index key with
  | .error e => .error e
  | .ok (doc2, v) =>
    match v.getString with
    | .error e => .error e
    | .ok s => .ok (doc2, s)

/-- The member `key` of a document converted to `bool` (gui_main.cpp:73). -/
def Json.boolAt (doc : Json) (key : String) : Except Exception (Json × Bool) :=
  match doc.index key with
  | .error e => .error e
  | .ok (doc2, v) =>
    match v.getBool with
    | .error e => .error e
    | .ok b => .ok (doc2, b)

/-- Lines 63-74 on a parsed document: `none` is the `continue` of the reserved
id, `some m` the module that is pushed, an error an exception that is thrown. -/
def moduleOfDocument (doc : Json) : Except Exception (Option SystemModule) :=
  match doc.stringAt "tid" with
  | .error e => .error e
  | .ok (doc1, sysmoduleProgramIdString) =>
    let sysmoduleProgramId := strtoul16 sysmoduleProgramIdString
    if sysmoduleProgramId == teslaProgramId then .ok none
    else
      match doc1.stringAt "name" with
      | .error e => .error e
      | .ok (doc2, name) =>
        match doc2.boolAt "requires_reboot" with
        | .error e => .error e
        | .ok (_, needReboot) =>
          .ok (some { name := name, programId := sysmoduleProgramId, needReboot := needReboot })

/-- One iteration of the loop at gui_main.cpp:39-120. -/
def scanEntry (env : ScanEnv) (entryName : List UInt8) : Except Exception (Option SystemModule) :=
  match env.toolbox (toolboxPath entryName) with
  | .openFailed => .ok none
  | .getSizeFailed => .ok none
  | .readFailed => .ok none
  | .read none => .error .parse_error
  | .read (some doc) => moduleOfDocument doc

/-- The loop at gui_main.cpp:39-120; no handler catches what an iteration throws. -/
def scanLoop (env : ScanEnv) : List (List UInt8) → List SystemModule →
    Except Exception (List SystemModule)
  | [], items => .ok items
  | entry :: rest, items =>
    match scanEntry env entry with
    | .error e => .error e
    | .ok none => scanLoop env rest items
    | .ok (some module) => scanLoop env rest (items ++ [module])

/-- Embedding of the constructor `GuiMain::GuiMain` (gui_main.cpp:25-122); an
error is an exception that leaves the constructor. -/
def GuiMain.ctor (env : ScanEnv) : Except Exception GuiMain :=
  let this := GuiMain.init
  if !env.sdCardOk then .ok this
  else if !env.smOk then .ok this
  else
    match env.contentDir with
    | none => .ok this
    | some entries =>
      match scanLoop env entries this.m_sysmoduleListItems with
      | .error e => .error e
      | .ok items => .ok { m_sysmoduleListItems := items, m_scanned := true }

/-! ## `GuiMain::createUI` -/

/-- An element added to the list of the overlay frame. -/
inductive Element where
  | categoryHeader (title : String)
  | customDrawer (strings : List String)
  | listItem (text : String) (value : String)
  deriving DecidableEq, Repr

/-- The loop at gui_main.cpp:174-181, with its `break`. -/
def dynamicStatic : List SystemModule → Bool × Bool → Bool × Bool
  | [], flags => flags
  | module :: rest, (hasDynamic, hasStatic) =>
    if hasDynamic && hasStatic then (hasDynamic, hasStatic)
    else if module.needReboot then dynamicStatic rest (hasDynamic, true)
    else dynamicStatic rest (true, hasStatic)

/-- The list item created for a module at gui_main.cpp:71. -/
def SystemModule.listItem (m : SystemModule) : Element := .listItem m.name ""

/-- Embedding of `GuiMain::createUI` (gui_main.cpp:129-208): the elements added
to `sysmoduleList`, in order. -/
def GuiMain.createUI (g : GuiMain) : List Element :=
  let power : List Element :=
    [ .categoryHeader "Power Control  |  \uE0E0  Restart and power off",
      .customDrawer ["\uE016  Quick reset or power off your console."],
      .listItem "Reboot" "|  \uE0F4",
      .listItem "Power off" "|  \uE098" ]
  if g.m_sysmoduleListItems.length == 0 then
    let description := if g.m_scanned then "No sysmodules found!" else "Scan failed!"
    power ++ [.customDrawer ["\uE150", description]]
  else
    let flags := dynamicStatic g.m_sysmoduleListItems (false, false)
    let dynamicPart : List Element :=
      if flags.1 then
        [ .categoryHeader "Dynamic  |  \uE0E0  Toggle  |  \uE0E3  Toggle auto start",
          .customDrawer ["\uE016  These sysmodules can be toggled at any time."] ]
        ++ (g.m_sysmoduleListItems.filter (fun m => !m.needReboot)).map SystemModule.listItem
      else []
    let staticPart : List Element :=
      if flags.2 then
        [ .categoryHeader "Static  |  \uE0E3  Toggle auto start",
          .customDrawer ["\uE016  These sysmodules need a reboot to work."] ]
        ++ (g.m_sysmoduleListItems.filter (fun m => m.needReboot)).map SystemModule.listItem
      else []
    power ++ dynamicPart ++ staticPart

/-- Whether some drawer of the user interface draws the text `message`. -/
def draws (ui : List Element) (message : String) : Bool :=
  ui.any (fun e =>
    match e with
    | .customDrawer strings => decide (message ∈ strings)
    | _ => false)

/-- Specification-side reading of a descriptor (spec 4.1, 6 and 9), to be
compared with `moduleOfDocument`: an object with a string `tid`, a string `name`
and a boolean `requires_reboot` whose parsed id is not the reserved one is
accepted as a module; any other document gives no module. -/
def validDescriptor (doc : Json) : Option SystemModule :=
  match doc with
  | .object members =>
    match members.lookup "tid", members.lookup "name", members.lookup "requires_reboot" with
    | some (.string tid), some (.string name), some (.boolean needReboot) =>
      if strtoul16 tid = teslaProgramId then none
      else some { name := name, programId := strtoul16 tid, needReboot := needReboot }
    | _, _, _ => none
  | _ => none

/-- The module accepted for a directory entry: the valid, non-reserved
descriptor, if any, in the toolbox file that line 41-42 selects for the entry. -/
def acceptedModule (env : ScanEnv) (entryName : List UInt8) : Option SystemModule :=
  match env.toolbox (toolboxPath entryName) with
  | .read (some doc) => validDescriptor doc
  | _ => none

/-! ## Sample inputs -/

/-- A module that can be toggled live. -/
def fooModule : SystemModule := ⟨"Foo", 0x0100000000000001, false⟩

/-- A module that needs a reboot. -/
def barModule : SystemModule := ⟨"Bar", 0x0100000000000002, true⟩

/-- An environment in which every mutating call succeeds. -/
def allOk : Outcomes := ⟨true, true, true, true, true⟩

/-- An environment in which only the launch request fails. -/
def launchFails : Outcomes := ⟨true, true, false, true, true⟩

/-- Both modules installed, stopped and unflagged; no `flags` folder exists yet. -/
def stoppedWorld : World :=
  { files := []
    dirs := ["/atmosphere/contents/0100000000000001", "/atmosphere/contents/0100000000000002"]
    procs := []
    pathBuffer := ""
    log := [] }

/-- Both modules installed, `Foo` running and flagged. -/
def runningWorld : World :=
  { files := ["/atmosphere/contents/0100000000000001/flags/boot2.flag"]
    dirs := ["/atmosphere/contents/0100000000000001/flags",
      "/atmosphere/contents/0100000000000001", "/atmosphere/contents/0100000000000002"]
    procs := [0x0100000000000001]
    pathBuffer := ""
    log := [] }

/-- The descriptor of `Foo`. -/
def fooDoc : Json :=
  .object [("name", .string "Foo"), ("tid", .string "0100000000000001"),
    ("requires_reboot", .boolean false)]

/-- The descriptor of `Bar`. -/
def barDoc : Json :=
  .object [("name", .string "Bar"), ("tid", .string "0100000000000002"),
    ("requires_reboot", .boolean true)]

/-- A descriptor carrying the reserved id. -/
def teslaDoc : Json :=
  .object [("name", .string "Tesla"), ("tid", .string "420000000007E51A"),
    ("requires_reboot", .boolean false)]

/-- A descriptor without a `name` member. -/
def namelessDoc : Json :=
  .object [("tid", .string "0100000000000001"), ("requires_reboot", .boolean false)]

/-- Three content folders: `Foo`, the reserved module, and one without toolbox file. -/
def sampleEnv : ScanEnv :=
  { sdCardOk := true
    smOk := true
    contentDir :=
      some [utf8 "0100000000000001", utf8 "420000000007E51A", utf8 "0100000000001000"]
    toolbox := fun path =>
      if path = utf8 "/atmosphere/contents/0100000000000001/toolbox.json" then
        .read (some fooDoc)
      else if path = utf8 "/atmosphere/contents/420000000007E51A/toolbox.json" then
        .read (some teslaDoc)
      else .openFailed }

/-- A content folder whose toolbox file is not valid JSON, followed by `Bar`. -/
def invalidJsonEnv : ScanEnv :=
  { sdCardOk := true
    smOk := true
    contentDir := some [utf8 "0100000000000001", utf8 "0100000000000002"]
    toolbox := fun path =>
      if path = utf8 "/atmosphere/contents/0100000000000001/toolbox.json" then .read none
      else if path = utf8 "/atmosphere/contents/0100000000000002/toolbox.json" then
        .read (some barDoc)
      else .openFailed }

/-- A content folder whose descriptor lacks `name`, followed by `Bar`. -/
def missingNameEnv : ScanEnv :=
  { sdCardOk := true
    smOk := true
    contentDir := some [utf8 "0100000000000001", utf8 "0100000000000002"]
    toolbox := fun path =>
      if path = utf8 "/atmosphere/contents/0100000000000001/toolbox.json" then
        .read (some namelessDoc)
      else if path = utf8 "/atmosphere/contents/0100000000000002/toolbox.json" then
        .read (some barDoc)
      else .openFailed }

/-- Two content folders whose descriptors carry the same `tid`. -/
def duplicateEnv : ScanEnv :=
  { sdCardOk := true
    smOk := true
    contentDir := some [utf8 "0100000000000001", utf8 "foo-backup"]
    toolbox := fun path =>
      if path = utf8 "/atmosphere/contents/0100000000000001/toolbox.json" then
        .read (some fooDoc)
      else if path = utf8 "/atmosphere/contents/foo-backup/toolbox.json" then
        .read (some fooDoc)
      else .openFailed }

/-- Four content folders: `Foo`, two folders with the reserved descriptor, `Bar`. -/
def twoModulesEnv : ScanEnv :=
  { sdCardOk := true
    smOk := true
    contentDir :=
      some [utf8 "0100000000000001", utf8 "420000000007E51A", utf8 "tesla-copy",
        utf8 "0100000000000002"]
    toolbox := fun path =>
      if path = utf8 "/atmosphere/contents/0100000000000001/toolbox.json" then
        .read (some fooDoc)
      else if path = utf8 "/atmosphere/contents/420000000007E51A/toolbox.json" then
        .read (some teslaDoc)
      else if path = utf8 "/atmosphere/contents/tesla-copy/toolbox.json" then
        .read (some teslaDoc)
      else if path = utf8 "/atmosphere/contents/0100000000000002/toolbox.json" then
        .read (some barDoc)
      else .openFailed }

/-- A folder name of 734 bytes, two ASCII letters and 244 three-byte characters. -/
def longName : List UInt8 := utf8 "aa" ++ (List.replicate 244 (utf8 "\u4E2D")).flatten

/-- Three content folders whose names agree on their first 734 bytes; only the
first holds a toolbox file, the descriptor of `Foo`. -/
def longNameEnv : ScanEnv :=
  { sdCardOk := true
    smOk := true
    contentDir := some [longName, longName ++ utf8 "A", longName ++ utf8 "B"]
    toolbox := fun path =>
      if path = utf8 "/atmosphere/contents/" ++ longName ++ utf8 "/toolbox.json" then
        .read (some fooDoc)
      else .openFailed }

/-- The SD card cannot be opened. -/
def noSdEnv : ScanEnv :=
  { sdCardOk := false, smOk := true, contentDir := none, toolbox := fun _ => .openFailed }

/-- The contents directory is empty. -/
def emptyEnv : ScanEnv :=
  { sdCardOk := true, smOk := true, contentDir := some [], toolbox := fun _ => .openFailed }

/-! ## Facts about formatting -/

theorem hexDigitUpper_inj : ∀ a < 16, ∀ b < 16, hexDigitUpper a = hexDigitUpper b → a = b := by
  decide

theorem hexUpper_length (k n : Nat) : (hexUpper k n).length = k := by
  induction k generalizing n with
  | zero => rfl
  | succ k ih => simp [hexUpper, ih]

theorem hexUpper_inj (k : Nat) : ∀ a b : Nat, hexUpper k a = hexUpper k b → a % 16 ^ k = b % 16 ^ k := by
  induction k with
  | zero => intro a b _; simp [Nat.mod_one]
  | succ k ih =>
    intro a b h
    simp only [hexUpper] at h
    have hlen : (hexUpper k (a / 16)).length = (hexUpper k (b / 16)).length := by
      simp [hexUpper_length]
    obtain ⟨h1, h2⟩ := List.append_inj h hlen
    have hd : a % 16 = b % 16 :=
      hexDigitUpper_inj _ (Nat.mod_lt _ (by norm_num)) _ (Nat.mod_lt _ (by norm_num))
        (by simpa using h2)
    have hq := ih _ _ h1
    rw [pow_succ', Nat.mod_mul, Nat.mod_mul, hd, hq]

theorem fmt016lX_inj (a b : Nat) (h : fmt016lX a = fmt016lX b) : a % 2 ^ 64 = b % 2 ^ 64 := by
  have h1 : hexUpper 16 (a % 2 ^ 64) = hexUpper 16 (b % 2 ^ 64) := by
    have := congrArg String.data h
    simpa [fmt016lX] using this
  have h2 := hexUpper_inj 16 _ _ h1
  have e : (16 : Nat) ^ 16 = 2 ^ 64 := by norm_num
  rw [e, Nat.mod_mod, Nat.mod_mod] at h2
  exact h2

theorem fmt016lX_length (v : Nat) : (fmt016lX v).length = 16 := by
  simp [fmt016lX, String.length, hexUpper_length]

theorem boot2FlagFormat_inj (a b : Nat) (h : boot2FlagFormat a = boot2FlagFormat b) :
    a % 2 ^ 64 = b % 2 ^ 64 := by
  apply fmt016lX_inj
  have := congrArg String.data h
  simp only [boot2FlagFormat, String.data_append, List.append_cancel_right_eq,
    List.append_cancel_left_eq] at this
  exact String.ext this

theorem snprintf_boot2FlagFormat (v : Nat) :
    snprintf FS_MAX_PATH (boot2FlagFormat v) = boot2FlagFormat v := by
  apply String.ext
  simp only [snprintf]
  apply List.take_of_length_le
  simp [boot2FlagFormat, String.data_append, fmt016lX_length, FS_MAX_PATH]

theorem snprintf_boot2FlagFolder (v : Nat) :
    snprintf FS_MAX_PATH (boot2FlagFolder v) = boot2FlagFolder v := by
  apply String.ext
  simp only [snprintf]
  apply List.take_of_length_le
  simp [boot2FlagFolder, String.data_append, fmt016lX_length, FS_MAX_PATH]

theorem toolboxPath_length_le (entryName : List UInt8) :
    (toolboxPath entryName).length ≤ FS_MAX_PATH - 1 := by
  unfold toolboxPath snprintfBytes
  exact List.length_take_le _ _

set_option maxRecDepth 100000 in
theorem toolboxPath_cuts_bytes :
    longName.length = 734 ∧
    (toolboxPath longName).length = 768 ∧
    toolboxPath (longName ++ utf8 "A") = toolboxPath longName ∧
    toolboxPath (longName ++ utf8 "B") = toolboxPath longName := by
  decide

/-! ## The state left by the mutating calls -/

theorem fsFsCreateDirectory_snd (ok : Bool) (path : String) (w : World) :
    (fsFsCreateDirectory ok path w).2 =
      { w with
        log := w.log ++ [Call.createDirectory path]
        dirs := if ok && !decide (path ∈ w.dirs) then path :: w.dirs else w.dirs } := by
  unfold fsFsCreateDirectory
  split <;> rfl

theorem pmshellTerminateProgram_snd (ok : Bool) (programId : Nat) (w : World) :
    (pmshellTerminateProgram ok programId w).2 =
      { w with
        log := w.log ++ [Call.terminateProgram programId]
        procs := if ok then w.procs.filter (fun p => !decide (p = programId)) else w.procs } := by
  unfold pmshellTerminateProgram
  cases ok <;> rfl

theorem pmshellLaunchProgram_snd (ok : Bool) (programId : Nat) (w : World) :
    (pmshellLaunchProgram ok programId w).2 =
      { w with
        log := w.log ++ [Call.launchProgram programId]
        procs := if ok then programId :: w.procs else w.procs } := by
  unfold pmshellLaunchProgram
  cases ok <;> rfl

theorem fsFsCreateFile_snd (ok : Bool) (path : String) (w : World) :
    (fsFsCreateFile ok path w).2 =
      { w with
        log := w.log ++ [Call.createFile path]
        files := if ok && !decide (path ∈ w.files) then path :: w.files else w.files } := by
  unfold fsFsCreateFile
  split <;> rfl

theorem fsFsDeleteFile_snd (ok : Bool) (path : String) (w : World) :
    (fsFsDeleteFile ok path w).2 =
      { w with
        log := w.log ++ [Call.deleteFile path]
        files := if ok && decide (path ∈ w.files)
          then w.files.filter (fun p => !decide (p = path)) else w.files } := by
  unfold fsFsDeleteFile
  split <;> rfl

theorem mem_ite_cons_of_ne {q p : String} (h : q ≠ p) (c : Prop) [Decidable c] (l : List String) :
    q ∈ (if c then p :: l else l) ↔ q ∈ l := by
  split <;> simp [h]

theorem mem_ite_filter_of_ne {q p : String} (h : q ≠ p) (c : Prop) [Decidable c]
    (l : List String) :
    q ∈ (if c then l.filter (fun x => !decide (x = p)) else l) ↔ q ∈ l := by
  split <;> simp [h]

/-! ## Toggle engine -/

/-- C1. For a module that needs no reboot, an A click whose stop/start and flag
create/delete calls are all allowed to succeed is handled and reconciles the
state: a running module ends stopped and unflagged (the flag file is deleted
only if it was there), a stopped module ends running and flagged (the flag file
is created only if it was missing). -/
theorem primary_toggle_reconciles (m : SystemModule) (o : Outcomes) (click : Nat) (w : World)
    (hm : m.needReboot = false) (hA : click &&& HidNpadButton_A ≠ 0)
    (ht : o.terminateOk = true) (hl : o.launchOk = true)
    (hc : o.createFileOk = true) (hd : o.deleteFileOk = true) :
    (clickListener m o click w).1 = true ∧
    (running w m = true →
      running (clickListener m o click w).2 m = false ∧
      autoStart (clickListener m o click w).2 m = false ∧
      issued w (clickListener m o click w).2 =
        [Call.createDirectory (boot2FlagFolder m.programId), Call.getProcessId m.programId,
          Call.terminateProgram m.programId, Call.openFile (boot2FlagFormat m.programId)]
        ++ (if autoStart w m then [Call.deleteFile (boot2FlagFormat m.programId)] else [])) ∧
    (running w m = false →
      running (clickListener m o click w).2 m = true ∧
      autoStart (clickListener m o click w).2 m = true ∧
      issued w (clickListener m o click w).2 =
        [Call.createDirectory (boot2FlagFolder m.programId), Call.getProcessId m.programId,
          Call.launchProgram m.programId, Call.openFile (boot2FlagFormat m.programId)]
        ++ (if autoStart w m then [] else [Call.createFile (boot2FlagFormat m.programId)])) := by
  have hA2 : (click &&& HidNpadButton_A != 0) = true := by simpa using hA
  by_cases hr : m.programId ∈ w.procs <;>
  by_cases hf : boot2FlagFormat m.programId ∈ w.files <;>
  by_cases hdir : boot2FlagFolder m.programId ∈ w.dirs <;>
  cases hcd : o.createDirectoryOk <;>
  simp [clickListener, running, autoStart, issued, isRunning, hasFlag, pmdmntGetProcessId,
    pmshellTerminateProgram, pmshellLaunchProgram, fsFsOpenFile, fsFsCreateFile, fsFsDeleteFile,
    fsFsCreateDirectory, snprintf_boot2FlagFormat, snprintf_boot2FlagFolder, hA2, hm, ht, hl, hc,
    hd, hr, hf, hdir, hcd]

/-- C2 (as amended). For a module that needs no reboot, the flag after an A click
is decided by the freshly read flag and by the flag call alone, whatever the
outcome of the stop or start request: a running module keeps its flag only if
the delete call fails, a stopped module ends flagged as soon as the create call
succeeds. -/
theorem primary_toggle_flag_ignores_ack (m : SystemModule) (o : Outcomes) (click : Nat)
    (w : World) (hm : m.needReboot = false) (hA : click &&& HidNpadButton_A ≠ 0) :
    autoStart (clickListener m o click w).2 m =
      (if running w m then autoStart w m && !o.deleteFileOk
       else autoStart w m || o.createFileOk) := by
  have hA2 : (click &&& HidNpadButton_A != 0) = true := by simpa using hA
  by_cases hr : m.programId ∈ w.procs <;>
  by_cases hf : boot2FlagFormat m.programId ∈ w.files <;>
  cases hc : o.createFileOk <;> cases hd : o.deleteFileOk <;>
  simp [clickListener, running, autoStart, isRunning, hasFlag, pmdmntGetProcessId,
    pmshellTerminateProgram_snd, pmshellLaunchProgram_snd, fsFsOpenFile, fsFsCreateFile,
    fsFsDeleteFile, fsFsCreateDirectory_snd, snprintf_boot2FlagFormat, snprintf_boot2FlagFolder,
    hA2, hm, hc, hd, hr, hf]

/-- C3. A click with Y and without A, on any module, is handled, issues no
process start or stop request, leaves the process table and `running`
unchanged, and negates `autoStart` whenever the flag call it issues (delete if
flagged, create otherwise) succeeds. -/
theorem autostart_toggle_isolated (m : SystemModule) (o : Outcomes) (click : Nat) (w : World)
    (hY : click &&& HidNpadButton_Y ≠ 0) (hA : click &&& HidNpadButton_A = 0) :
    (clickListener m o click w).1 = true ∧
    (∀ c ∈ issued w (clickListener m o click w).2, c.isProcessRequest = false) ∧
    (clickListener m o click w).2.procs = w.procs ∧
    running (clickListener m o click w).2 m = running w m ∧
    ((if autoStart w m then o.deleteFileOk else o.createFileOk) = true →
      autoStart (clickListener m o click w).2 m = !autoStart w m) := by
  have hY2 : (click &&& HidNpadButton_Y != 0) = true := by simpa using hY
  have hA2 : (click &&& HidNpadButton_A != 0) = false := by simpa using hA
  by_cases hf : boot2FlagFormat m.programId ∈ w.files <;>
  cases hc : o.createFileOk <;> cases hd : o.deleteFileOk <;>
  simp [clickListener, running, autoStart, issued, isRunning, hasFlag, pmdmntGetProcessId,
    fsFsOpenFile, fsFsCreateFile, fsFsDeleteFile, fsFsCreateDirectory_snd,
    snprintf_boot2FlagFormat, snprintf_boot2FlagFolder, hA2, hY2, hc, hd, hf,
    Call.isProcessRequest]

/-- C4. On a module that needs a reboot, a click with A and without Y is not
handled: the only request issued is the creation of the flags folder, so no
process is started or stopped and `running` and `autoStart` keep their values. -/
theorem primary_toggle_reboot_module_frame (m : SystemModule) (o : Outcomes) (click : Nat)
    (w : World) (hm : m.needReboot = true) (_hA : click &&& HidNpadButton_A ≠ 0)
    (hY : click &&& HidNpadButton_Y = 0) :
    (clickListener m o click w).1 = false ∧
    (∀ c ∈ issued w (clickListener m o click w).2, c.isProcessRequest = false) ∧
    running (clickListener m o click w).2 m = running w m ∧
    autoStart (clickListener m o click w).2 m = autoStart w m := by
  have hY2 : (click &&& HidNpadButton_Y != 0) = false := by simpa using hY
  by_cases hdir : boot2FlagFolder m.programId ∈ w.dirs <;>
  cases hcd : o.createDirectoryOk <;>
  simp [clickListener, running, autoStart, issued, isRunning, hasFlag, pmdmntGetProcessId,
    pmshellTerminateProgram, pmshellLaunchProgram, fsFsOpenFile, fsFsCreateFile, fsFsDeleteFile,
    fsFsCreateDirectory, snprintf_boot2FlagFormat, snprintf_boot2FlagFolder, hY2, hm, hdir, hcd, Call.isProcessRequest]

/-- C10 (as amended). On a module that needs a reboot, a click with A and
without Y starts or stops no process and creates or deletes no file; its one
request is `fsFsCreateDirectory` on the flags folder of the module, which adds
that folder when the call is allowed and the folder is missing. -/
theorem primary_toggle_reboot_module_fs (m : SystemModule) (o : Outcomes) (click : Nat)
    (w : World) (hm : m.needReboot = true) (_hA : click &&& HidNpadButton_A ≠ 0)
    (hY : click &&& HidNpadButton_Y = 0) :
    issued w (clickListener m o click w).2 = [Call.createDirectory (boot2FlagFolder m.programId)] ∧
    (clickListener m o click w).2.procs = w.procs ∧
    (clickListener m o click w).2.files = w.files ∧
    (clickListener m o click w).2.dirs =
      (if o.createDirectoryOk && !decide (boot2FlagFolder m.programId ∈ w.dirs)
       then boot2FlagFolder m.programId :: w.dirs else w.dirs) := by
  have hY2 : (click &&& HidNpadButton_Y != 0) = false := by simpa using hY
  by_cases hdir : boot2FlagFolder m.programId ∈ w.dirs <;>
  cases hcd : o.createDirectoryOk <;>
  simp [clickListener, running, autoStart, issued, isRunning, hasFlag, pmdmntGetProcessId,
    pmshellTerminateProgram, pmshellLaunchProgram, fsFsOpenFile, fsFsCreateFile, fsFsDeleteFile,
    fsFsCreateDirectory, snprintf_boot2FlagFormat, snprintf_boot2FlagFolder, hY2, hm, hdir, hcd]

/-- C9. For two modules with different 64-bit ids the marker paths differ, every
file created or deleted by a click on the first is the marker file of the
first (the path buffer still holds it after the intervening `hasFlag`), and
the auto-start flag of the second is unchanged by any click on the first. -/
theorem click_confined_to_own_marker (m1 m2 : SystemModule) (o : Outcomes) (click : Nat)
    (w : World) (h1 : m1.programId < 2 ^ 64) (h2 : m2.programId < 2 ^ 64)
    (hne : m1.programId ≠ m2.programId) :
    boot2FlagFormat m1.programId ≠ boot2FlagFormat m2.programId ∧
    (∀ c ∈ issued w (clickListener m1 o click w).2, c.isFileMutation = true →
      c = Call.createFile (boot2FlagFormat m1.programId) ∨
      c = Call.deleteFile (boot2FlagFormat m1.programId)) ∧
    (clickListener m1 o click w).2.pathBuffer = boot2FlagFormat m1.programId ∧
    autoStart (clickListener m1 o click w).2 m2 = autoStart w m2 := by
  have hp : boot2FlagFormat m1.programId ≠ boot2FlagFormat m2.programId := by
    intro h
    have := boot2FlagFormat_inj _ _ h
    rw [Nat.mod_eq_of_lt h1, Nat.mod_eq_of_lt h2] at this
    exact hne this
  have hp2 : boot2FlagFormat m2.programId ≠ boot2FlagFormat m1.programId := fun h => hp h.symm
  refine ⟨hp, ?_⟩
  simp only [clickListener, running, autoStart, issued, isRunning, hasFlag, pmdmntGetProcessId,
    pmshellTerminateProgram_snd, pmshellLaunchProgram_snd, fsFsOpenFile, fsFsCreateFile_snd,
    fsFsDeleteFile_snd, fsFsCreateDirectory_snd, snprintf_boot2FlagFormat,
    snprintf_boot2FlagFolder]
  split_ifs <;>
  simp [Call.isFileMutation, mem_ite_cons_of_ne hp2, mem_ite_filter_of_ne hp2]

/-! ## Module registry -/

theorem moduleOfDocument_programId (doc : Json) (m : SystemModule)
    (h : moduleOfDocument doc = .ok (some m)) :
    m.programId ≠ teslaProgramId ∧
    ∃ doc1 tid, doc.stringAt "tid" = .ok (doc1, tid) ∧ m.programId = strtoul16 tid := by
  unfold moduleOfDocument at h
  cases hst : doc.stringAt "tid" with
  | error e => simp [hst] at h
  | ok p =>
    obtain ⟨doc1, tid⟩ := p
    simp only [hst] at h
    split at h
    · cases h
    · rename_i hne
      split at h
      · cases h
      · split at h
        · cases h
        · simp only [Except.ok.injEq, Option.some.injEq] at h
          subst h
          exact ⟨by simpa using hne, doc1, tid, rfl, rfl⟩

theorem scanEntry_programId (env : ScanEnv) (entryName : List UInt8) (m : SystemModule)
    (h : scanEntry env entryName = .ok (some m)) : m.programId ≠ teslaProgramId := by
  unfold scanEntry at h
  split at h <;> try cases h
  rename_i doc hdoc
  exact (moduleOfDocument_programId doc m h).1

theorem moduleOfDocument_valid (doc : Json) (r : Option SystemModule)
    (h : moduleOfDocument doc = .ok r) : validDescriptor doc = r := by
  cases doc with
  | object members =>
    cases ht : members.lookup "tid" with
    | none => simp [moduleOfDocument, Json.stringAt, Json.index, Json.getString, ht] at h
    | some vt =>
      cases vt with
      | string tid =>
        by_cases hres : strtoul16 tid = teslaProgramId
        · simp only [moduleOfDocument, Json.stringAt, Json.index, Json.getString, ht,
            beq_iff_eq, hres, if_true, Except.ok.injEq] at h
          subst h
          simp only [validDescriptor, ht]
          split
          · rename_i tid2 _ _ h1 _ _
            cases h1
            simp [hres]
          · rfl
        · cases hn : members.lookup "name" with
          | none =>
            simp [moduleOfDocument, Json.stringAt, Json.index, Json.getString, ht, hres, hn] at h
          | some vn =>
            cases vn with
            | string name =>
              cases hb : members.lookup "requires_reboot" with
              | none =>
                simp [moduleOfDocument, Json.stringAt, Json.boolAt, Json.index, Json.getString,
                  Json.getBool, ht, hres, hn, hb] at h
              | some vb =>
                cases vb with
                | boolean needReboot =>
                  simp only [moduleOfDocument, Json.stringAt, Json.boolAt, Json.index,
                    Json.getString, Json.getBool, ht, hn, hb, beq_iff_eq, hres, if_false,
                    Except.ok.injEq] at h
                  subst h
                  simp [validDescriptor, ht, hn, hb, hres]
                | _ =>
                  simp [moduleOfDocument, Json.stringAt, Json.boolAt, Json.index,
                    Json.getString, Json.getBool, ht, hres, hn, hb] at h
            | _ =>
              simp [moduleOfDocument, Json.stringAt, Json.index, Json.getString, ht, hres,
                hn] at h
      | _ => simp [moduleOfDocument, Json.stringAt, Json.index, Json.getString, ht] at h
  | _ => simp [moduleOfDocument, Json.stringAt, Json.index, Json.getString] at h

theorem scanEntry_accepted (env : ScanEnv) (entryName : List UInt8)
    (r : Option SystemModule) (h : scanEntry env entryName = .ok r) :
    acceptedModule env entryName = r := by
  unfold scanEntry at h
  unfold acceptedModule
  cases hfile : env.toolbox (toolboxPath entryName) with
  | read parsed =>
    cases parsed with
    | none => simp [hfile] at h
    | some doc =>
      simp only [hfile] at h
      exact moduleOfDocument_valid doc r h
  | _ =>
    simp only [hfile, Except.ok.injEq] at h
    exact h

theorem scanLoop_invariant (env : ScanEnv) (P : SystemModule → Prop)
    (hP : ∀ entryName m, scanEntry env entryName = .ok (some m) → P m) :
    ∀ (entries : List (List UInt8)) (items result : List SystemModule),
      (∀ m ∈ items, P m) → scanLoop env entries items = .ok result → ∀ m ∈ result, P m := by
  intro entries
  induction entries with
  | nil =>
    intro items result hitems h
    simp only [scanLoop, Except.ok.injEq] at h
    subst h
    exact hitems
  | cons entry rest ih =>
    intro items result hitems h
    simp only [scanLoop] at h
    split at h
    · cases h
    · exact ih items result hitems h
    · rename_i module hentry
      refine ih (items ++ [module]) result ?_ h
      intro m hm
      rcases List.mem_append.mp hm with hm | hm
      · exact hitems m hm
      · rw [List.mem_singleton.mp hm]
        exact hP entry module hentry

theorem scanLoop_accepted (env : ScanEnv) :
    ∀ (entries : List (List UInt8)) (items result : List SystemModule),
      scanLoop env entries items = .ok result →
      result = items ++ entries.filterMap (acceptedModule env) := by
  intro entries
  induction entries with
  | nil =>
    intro items result h
    simp only [scanLoop, Except.ok.injEq] at h
    simp [h]
  | cons entry rest ih =>
    intro items result h
    simp only [scanLoop] at h
    split at h
    · cases h
    · rename_i hentry
      rw [ih items result h, List.filterMap_cons, scanEntry_accepted env entry none hentry]
    · rename_i module hentry
      rw [ih (items ++ [module]) result h, List.filterMap_cons,
        scanEntry_accepted env entry (some module) hentry]
      simp

theorem ctor_ok_cases (env : ScanEnv) (g : GuiMain) (h : GuiMain.ctor env = .ok g) :
    (g = GuiMain.init ∧ (env.sdCardOk = false ∨ env.smOk = false ∨ env.contentDir = none)) ∨
    (∃ entries, env.sdCardOk = true ∧ env.smOk = true ∧ env.contentDir = some entries ∧
      g.m_scanned = true ∧ scanLoop env entries [] = .ok g.m_sysmoduleListItems) := by
  unfold GuiMain.ctor at h
  cases hsd : env.sdCardOk
  · simp [hsd] at h
    exact Or.inl ⟨h.symm, Or.inl rfl⟩
  · cases hsm : env.smOk
    · simp [hsd, hsm] at h
      exact Or.inl ⟨h.symm, Or.inr (Or.inl rfl)⟩
    · cases hdir : env.contentDir with
      | none =>
        simp [hsd, hsm, hdir] at h
        exact Or.inl ⟨h.symm, Or.inr (Or.inr rfl)⟩
      | some entries =>
        simp only [hsd, hsm, hdir, Bool.not_true, Bool.false_eq_true, if_false] at h
        split at h
        · cases h
        · rename_i items hloop
          simp only [Except.ok.injEq] at h
          subst h
          exact Or.inr ⟨entries, rfl, rfl, rfl, rfl, hloop⟩

/-- C5. Whenever the constructor returns (no exception leaves the scan), no
module of `m_sysmoduleListItems` has the reserved program id 0x420000000007E51A. -/
theorem registry_excludes_reserved (env : ScanEnv) (g : GuiMain)
    (h : GuiMain.ctor env = .ok g) :
    ∀ m ∈ g.m_sysmoduleListItems, m.programId ≠ teslaProgramId := by
  rcases ctor_ok_cases env g h with ⟨hg, _⟩ | ⟨entries, _, _, _, _, hloop⟩
  · subst hg
    intro m hm
    simp [GuiMain.init] at hm
  · exact scanLoop_invariant env (fun m => m.programId ≠ teslaProgramId)
      (fun e m he => scanEntry_programId env e m he) entries [] _
      (by intro m hm; cases hm) hloop

/-- C7 (as amended). The scan does not deduplicate: when it has enumerated
`entries` and the constructor returns, `m_sysmoduleListItems` holds, in
enumeration order, one module for every entry whose toolbox file is a valid,
non-reserved descriptor; hence no two registry entries have the same
`programId` exactly when no two of these accepted descriptors carry tids that
parse to the same id. -/
theorem registry_ids_unique_iff_accepted (env : ScanEnv) (g : GuiMain)
    (entries : List (List UInt8)) (h : GuiMain.ctor env = .ok g)
    (hsd : env.sdCardOk = true) (hsm : env.smOk = true)
    (hdir : env.contentDir = some entries) :
    g.m_sysmoduleListItems = entries.filterMap (acceptedModule env) ∧
    ((g.m_sysmoduleListItems.map SystemModule.programId).Nodup ↔
      ((entries.filterMap (acceptedModule env)).map SystemModule.programId).Nodup) := by
  have hitems : g.m_sysmoduleListItems = entries.filterMap (acceptedModule env) := by
    rcases ctor_ok_cases env g h with ⟨_, hf | hf | hf⟩ | ⟨entries2, _, _, hdir2, _, hloop⟩
    · rw [hsd] at hf; cases hf
    · rw [hsm] at hf; cases hf
    · rw [hdir] at hf; cases hf
    · rw [hdir] at hdir2
      cases hdir2
      simpa using scanLoop_accepted env entries [] _ hloop
  exact ⟨hitems, by rw [hitems]⟩

/-- Witness of C5: a scan that meets the reserved descriptor returns without it. -/
theorem registry_excludes_reserved_witness :
    GuiMain.ctor sampleEnv = .ok ⟨[fooModule], true⟩ ∧
    ∀ m ∈ [fooModule], m.programId ≠ teslaProgramId :=
  ⟨rfl, registry_excludes_reserved sampleEnv ⟨[fooModule], true⟩ rfl⟩

/-- C6 (evaluation at the failing input). A toolbox file that is not valid JSON,
or a descriptor without `name`, makes the constructor throw: the scan stops at
that entry and the following valid descriptor `Bar` is never registered. -/
theorem scan_aborts_on_unparsable_descriptor :
    GuiMain.ctor invalidJsonEnv = .error .parse_error ∧
    GuiMain.ctor missingNameEnv = .error (.type_error 302) ∧
    scanEntry invalidJsonEnv (utf8 "0100000000000002") = .ok (some barModule) :=
  ⟨rfl, rfl, rfl⟩

/-- C7 (counterexample). Two content folders whose descriptors carry the same
`tid` give two registry entries with the same `programId`. -/
theorem registry_ids_not_unique :
    GuiMain.ctor duplicateEnv = .ok ⟨[fooModule, fooModule], true⟩ ∧
    ¬ ([fooModule, fooModule].map SystemModule.programId).Nodup :=
  ⟨rfl, by decide⟩

set_option maxRecDepth 100000 in
theorem scan_of_truncated_names :
    GuiMain.ctor longNameEnv = .ok ⟨[fooModule, fooModule, fooModule], true⟩ := by
  rfl

/-- Witness of C7 (as amended): `Foo` and `Bar` are registered with different
ids, the two reserved descriptors in between are not accepted. -/
theorem registry_ids_unique_iff_accepted_witness :
    GuiMain.ctor twoModulesEnv = .ok ⟨[fooModule, barModule], true⟩ ∧
    [fooModule, barModule] =
      [utf8 "0100000000000001", utf8 "420000000007E51A", utf8 "tesla-copy",
        utf8 "0100000000000002"].filterMap (acceptedModule twoModulesEnv) ∧
    ([fooModule, barModule].map SystemModule.programId).Nodup :=
  ⟨rfl,
   (registry_ids_unique_iff_accepted twoModulesEnv ⟨[fooModule, barModule], true⟩ _
      rfl rfl rfl rfl).1,
   (registry_ids_unique_iff_accepted twoModulesEnv ⟨[fooModule, barModule], true⟩ _
      rfl rfl rfl rfl).2.mpr (by decide)⟩

/-! ## Empty-state messages -/

theorem draws_listItems (items : List SystemModule) (message : String) :
    draws (items.map SystemModule.listItem) message = false := by
  induction items with
  | nil => rfl
  | cons m rest ih =>
    simp only [draws, List.map_cons, List.any_cons, SystemModule.listItem, Bool.false_or] at ih ⊢
    exact ih

theorem draws_append (a b : List Element) (message : String) :
    draws (a ++ b) message = (draws a message || draws b message) := by
  simp [draws, List.any_append]

theorem createUI_nonempty_draws (g : GuiMain) (h : g.m_sysmoduleListItems ≠ []) :
    draws g.createUI "Scan failed!" = false ∧ draws g.createUI "No sysmodules found!" = false := by
  have hlen : (g.m_sysmoduleListItems.length == 0) = false := by
    cases hl : g.m_sysmoduleListItems with
    | nil => exact absurd hl h
    | cons a l => rfl
  unfold GuiMain.createUI
  simp only [hlen, Bool.false_eq_true, if_false]
  constructor <;>
  · cases (dynamicStatic g.m_sysmoduleListItems (false, false)).1 <;>
    cases (dynamicStatic g.m_sysmoduleListItems (false, false)).2 <;>
    simp only [draws_append, draws_listItems, if_true, if_false, Bool.false_eq_true,
      Bool.or_false, List.append_nil] <;>
    decide

/-- C8. When the SD card, the service manager or the contents directory cannot
be opened, the constructor returns an empty registry and the interface draws
"Scan failed!" and not "No sysmodules found!"; when the enumeration completed
and registered nothing it draws "No sysmodules found!" and not "Scan failed!";
with at least one registered module it draws neither message. -/
theorem empty_registry_messages (env : ScanEnv) :
    ((env.sdCardOk = false ∨ env.smOk = false ∨ env.contentDir = none) →
      ∃ g, GuiMain.ctor env = .ok g ∧ g.m_sysmoduleListItems = [] ∧
        draws g.createUI "Scan failed!" = true ∧
        draws g.createUI "No sysmodules found!" = false) ∧
    (∀ g, GuiMain.ctor env = .ok g →
      env.sdCardOk = true → env.smOk = true → env.contentDir ≠ none →
      g.m_sysmoduleListItems = [] →
        draws g.createUI "No sysmodules found!" = true ∧
        draws g.createUI "Scan failed!" = false) ∧
    (∀ g, GuiMain.ctor env = .ok g → g.m_sysmoduleListItems ≠ [] →
      draws g.createUI "Scan failed!" = false ∧
      draws g.createUI "No sysmodules found!" = false) := by
  refine ⟨?_, ?_, ?_⟩
  · intro hfail
    refine ⟨GuiMain.init, ?_, rfl, by decide, by decide⟩
    unfold GuiMain.ctor
    rcases hfail with h | h | h
    · simp [h]
    · cases hsd : env.sdCardOk <;> simp [h]
    · cases hsd : env.sdCardOk <;> cases hsm : env.smOk <;> simp [h]
  · intro g hg hsd hsm hdir hnil
    rcases ctor_ok_cases env g hg with ⟨_, h | h | h⟩ | ⟨entries, _, _, _, hscanned, _⟩
    · rw [hsd] at h; cases h
    · rw [hsm] at h; cases h
    · exact absurd h hdir
    · obtain ⟨items, scanned⟩ := g
      simp only at hnil hscanned
      subst hnil hscanned
      exact ⟨by decide, by decide⟩
  · intro g _ hne
    exact createUI_nonempty_draws g hne

/-- Witness of C8: a failed scan, an empty contents directory and a scan that
finds `Foo`. -/
theorem empty_registry_messages_witness :
    (∃ g, GuiMain.ctor noSdEnv = .ok g ∧ g.m_sysmoduleListItems = [] ∧
      draws g.createUI "Scan failed!" = true ∧
      draws g.createUI "No sysmodules found!" = false) ∧
    (draws (GuiMain.createUI ⟨[], true⟩) "No sysmodules found!" = true ∧
      draws (GuiMain.createUI ⟨[], true⟩) "Scan failed!" = false) ∧
    (draws (GuiMain.createUI ⟨[fooModule], true⟩) "Scan failed!" = false ∧
      draws (GuiMain.createUI ⟨[fooModule], true⟩) "No sysmodules found!" = false) :=
  ⟨(empty_registry_messages noSdEnv).1 (Or.inl rfl),
   (empty_registry_messages emptyEnv).2.1 ⟨[], true⟩ rfl rfl rfl (by decide) rfl,
   (empty_registry_messages sampleEnv).2.2 ⟨[fooModule], true⟩ rfl (by decide)⟩

/-! ## Toggle engine at the sample inputs -/

/-- Witness of C1: the two transitions named by the specification. -/
theorem primary_toggle_reconciles_witness :
    (running stoppedWorld fooModule = false ∧ autoStart stoppedWorld fooModule = false ∧
      running (clickListener fooModule allOk HidNpadButton_A stoppedWorld).2 fooModule = true ∧
      autoStart (clickListener fooModule allOk HidNpadButton_A stoppedWorld).2 fooModule = true) ∧
    (running runningWorld fooModule = true ∧ autoStart runningWorld fooModule = true ∧
      running (clickListener fooModule allOk HidNpadButton_A runningWorld).2 fooModule = false ∧
      autoStart (clickListener fooModule allOk HidNpadButton_A runningWorld).2 fooModule
        = false) :=
  ⟨⟨by decide, by decide,
      ((primary_toggle_reconciles fooModule allOk HidNpadButton_A stoppedWorld rfl (by decide)
        rfl rfl rfl rfl).2.2 (by decide)).1,
      ((primary_toggle_reconciles fooModule allOk HidNpadButton_A stoppedWorld rfl (by decide)
        rfl rfl rfl rfl).2.2 (by decide)).2.1⟩,
   ⟨by decide, by decide,
      ((primary_toggle_reconciles fooModule allOk HidNpadButton_A runningWorld rfl (by decide)
        rfl rfl rfl rfl).2.1 (by decide)).1,
      ((primary_toggle_reconciles fooModule allOk HidNpadButton_A runningWorld rfl (by decide)
        rfl rfl rfl rfl).2.1 (by decide)).2.1⟩⟩

/-- C2 (counterexample). `Foo` is stopped and unflagged and the launch request
fails: the A click still creates the flag file, so the state becomes
(not running, flagged). -/
theorem primary_toggle_flags_after_failed_start :
    fooModule.needReboot = false ∧ launchFails.launchOk = false ∧
    running stoppedWorld fooModule = false ∧ autoStart stoppedWorld fooModule = false ∧
    running (clickListener fooModule launchFails HidNpadButton_A stoppedWorld).2 fooModule
      = false ∧
    autoStart (clickListener fooModule launchFails HidNpadButton_A stoppedWorld).2 fooModule
      = true := by
  decide

/-- Witness of C2 (as amended), at the failed start. -/
theorem primary_toggle_flag_ignores_ack_witness :
    autoStart (clickListener fooModule launchFails HidNpadButton_A stoppedWorld).2 fooModule =
      (if running stoppedWorld fooModule
       then autoStart stoppedWorld fooModule && !launchFails.deleteFileOk
       else autoStart stoppedWorld fooModule || launchFails.createFileOk) :=
  primary_toggle_flag_ignores_ack fooModule launchFails HidNpadButton_A stoppedWorld rfl
    (by decide)

/-- Witness of C3: a Y click on the reboot-required module `Bar`. -/
theorem autostart_toggle_isolated_witness :
    (clickListener barModule allOk HidNpadButton_Y stoppedWorld).2.procs = stoppedWorld.procs ∧
    running (clickListener barModule allOk HidNpadButton_Y stoppedWorld).2 barModule
      = running stoppedWorld barModule ∧
    autoStart (clickListener barModule allOk HidNpadButton_Y stoppedWorld).2 barModule
      = !autoStart stoppedWorld barModule :=
  ⟨(autostart_toggle_isolated barModule allOk HidNpadButton_Y stoppedWorld (by decide)
      (by decide)).2.2.1,
   (autostart_toggle_isolated barModule allOk HidNpadButton_Y stoppedWorld (by decide)
      (by decide)).2.2.2.1,
   (autostart_toggle_isolated barModule allOk HidNpadButton_Y stoppedWorld (by decide)
      (by decide)).2.2.2.2 (by decide)⟩

/-- Witness of C4: an A click on the reboot-required module `Bar`. -/
theorem primary_toggle_reboot_module_frame_witness :
    (clickListener barModule allOk HidNpadButton_A stoppedWorld).1 = false ∧
    running (clickListener barModule allOk HidNpadButton_A stoppedWorld).2 barModule
      = running stoppedWorld barModule ∧
    autoStart (clickListener barModule allOk HidNpadButton_A stoppedWorld).2 barModule
      = autoStart stoppedWorld barModule :=
  ⟨(primary_toggle_reboot_module_frame barModule allOk HidNpadButton_A stoppedWorld rfl
      (by decide) (by decide)).1,
   (primary_toggle_reboot_module_frame barModule allOk HidNpadButton_A stoppedWorld rfl
      (by decide) (by decide)).2.2⟩

/-- C10 (counterexample). An A click on the reboot-required module `Bar` creates
its `flags` directory, which did not exist before. -/
theorem primary_toggle_reboot_module_creates_folder :
    barModule.needReboot = true ∧
    HidNpadButton_A &&& HidNpadButton_Y = 0 ∧
    "/atmosphere/contents/0100000000000002/flags" ∉ stoppedWorld.dirs ∧
    (clickListener barModule allOk HidNpadButton_A stoppedWorld).2.dirs =
      "/atmosphere/contents/0100000000000002/flags" :: stoppedWorld.dirs := by
  decide

/-- Witness of C10 (as amended), at the same click. -/
theorem primary_toggle_reboot_module_fs_witness :
    issued stoppedWorld (clickListener barModule allOk HidNpadButton_A stoppedWorld).2 =
      [Call.createDirectory (boot2FlagFolder barModule.programId)] ∧
    (clickListener barModule allOk HidNpadButton_A stoppedWorld).2.files = stoppedWorld.files :=
  ⟨(primary_toggle_reboot_module_fs barModule allOk HidNpadButton_A stoppedWorld rfl
      (by decide) (by decide)).1,
   (primary_toggle_reboot_module_fs barModule allOk HidNpadButton_A stoppedWorld rfl
      (by decide) (by decide)).2.2.1⟩

/-- Witness of C9: an A click on `Foo` leaves the flag of `Bar` alone. -/
theorem click_confined_to_own_marker_witness :
    boot2FlagFormat fooModule.programId ≠ boot2FlagFormat barModule.programId ∧
    autoStart (clickListener fooModule allOk HidNpadButton_A stoppedWorld).2 barModule
      = autoStart stoppedWorld barModule :=
  ⟨(click_confined_to_own_marker fooModule barModule allOk HidNpadButton_A stoppedWorld
      (by decide) (by decide) (by decide)).1,
   (click_confined_to_own_marker fooModule barModule allOk HidNpadButton_A stoppedWorld
      (by decide) (by decide) (by decide)).2.2.2⟩

end OvlSysmodules
